import Mathlib

/-!
Shallow embedding of the authentication and session-lifecycle subsystem of
the `todo-api` repository (Go), covering:

* `internal/auth/password.go` — password hashing/verification and strength
  validation;
* `internal/auth/jwt.go` — access/refresh token minting and validation;
* `internal/middleware/auth.go` — the request authenticator and admin gate;
* `internal/repository/user.go` — the user and refresh-token store queries;
* `internal/service/auth.go` — the auth orchestrator (register, login,
  refresh, logout, logout-all, cleanup).

Time instants and durations are modelled as integers (unix seconds).  The
database is modelled as an explicit state value threaded through the
service operations; SQL queries become list operations mirroring their
WHERE clauses.  The external `golang-jwt/jwt/v5` parse step is modelled
after the library: a token value records the algorithm it was signed with
and the key used; `ParseWithClaims` runs the key function (the in-repo one
rejects any non-HMAC algorithm), verifies the signature (success exactly
when the recorded key equals the manager's secret), and then runs the
library's default registered-claims validation — a token whose `exp` is
not strictly in the future, or whose `nbf` is in the future, fails the
parse itself with the library's `ErrTokenInvalidClaims`-wrapped error,
which is a different error value from the repository's own
`ErrExpiredToken` sentinel.
-/

namespace TodoApi

/-- Decidable equality on `Except`, so that results of the fallible
operations can be evaluated on concrete inputs. -/
instance {ε α : Type} [DecidableEq ε] [DecidableEq α] : DecidableEq (Except ε α) := fun
  | .ok a, .ok b =>
    if h : a = b then .isTrue (by rw [h])
    else .isFalse (by intro hc; cases hc; exact h rfl)
  | .ok _, .error _ => .isFalse (by intro hc; cases hc)
  | .error _, .ok _ => .isFalse (by intro hc; cases hc)
  | .error e, .error f =>
    if h : e = f then .isTrue (by rw [h])
    else .isFalse (by intro hc; cases hc; exact h rfl)

/-! ## Go string primitives

Models of the Go standard-library string functions the subsystem uses
(`strings.TrimSpace`, `strings.ToLower`, `strings.Contains`,
`strings.Split` with separator `" "`), written by structural recursion
over the character list so that they evaluate. -/

/-- Unicode whitespace as far as the inputs of this subsystem go — the
characters `strings.TrimSpace` strips. -/
def isSpaceChar (c : Char) : Bool :=
  c = ' ' ∨ c = '\t' ∨ c = '\n' ∨ c = '\r'

/-- `strings.TrimSpace`: drop whitespace from both ends. -/
def trimStr (s : String) : String :=
  String.mk (((s.data.dropWhile isSpaceChar).reverse.dropWhile isSpaceChar).reverse)

/-- `strings.ToLower`: lowercase every character. -/
def toLowerStr (s : String) : String :=
  String.mk (s.data.map Char.toLower)

/-- `strings.Contains(s, string(c))` for a single character. -/
def containsChar (s : String) (c : Char) : Bool :=
  s.data.any (· = c)

/-- Helper for `strings.Split(s, " ")`: accumulate the current field
(reversed) and cut at every space. -/
def splitOnSpaceAux : List Char → List Char → List String
  | [], acc => [String.mk acc.reverse]
  | c :: cs, acc =>
    if c = ' ' then String.mk acc.reverse :: splitOnSpaceAux cs []
    else splitOnSpaceAux cs (c :: acc)

/-- `strings.Split(s, " ")`: split on every single space; adjacent
separators yield empty fields, and the empty string yields `[""]`. -/
def splitOnSpace (s : String) : List String :=
  splitOnSpaceAux s.data []

/-! ## Passwords — `internal/auth/password.go` -/

/-- A stored password-hash string, modelled algebraically: the empty
string, a bcrypt hash recording the hashed password and the salt used,
or a malformed string that bcrypt cannot parse. -/
inductive HashString where
  | empty : HashString
  | bcrypt (pw : String) (salt : Nat) : HashString
  | malformed (s : String) : HashString
deriving DecidableEq, Repr

/-- Errors surfaced by the password manager (`ErrInvalidPassword` vs any
other bcrypt comparison failure). -/
inductive PwError where
  | invalidPassword : PwError
  | otherError : PwError
deriving DecidableEq, Repr

/-- `PasswordManager.HashPassword`: rejects the empty password, otherwise
produces a salted bcrypt hash (the fresh salt is passed explicitly). -/
def HashPassword (password : String) (salt : Nat) : Except PwError HashString :=
  if password = "" then .error .otherError
  else .ok (.bcrypt password salt)

/-- `PasswordManager.CheckPassword`: empty password or empty hash is
`ErrInvalidPassword`; a bcrypt mismatch is `ErrInvalidPassword`; any other
comparison failure (malformed hash) is surfaced as a generic error. -/
def CheckPassword (password : String) (hash : HashString) : Except PwError Unit :=
  if password = "" ∨ hash = .empty then .error .invalidPassword
  else
    match hash with
    | .empty => .error .invalidPassword
    | .bcrypt pw _ => if pw = password then .ok () else .error .invalidPassword
    | .malformed _ => .error .otherError

/-- The four strength rules of `ValidatePasswordStrength`, in source
order. -/
inductive PwRule where
  | tooShort : PwRule
  | noUpper : PwRule
  | noLower : PwRule
  | noNumber : PwRule
deriving DecidableEq, Repr

/-- `ValidatePasswordStrength` (`password.go` 61–99): length at least 8
bytes, then at least one uppercase letter, one lowercase letter and one
digit, reported in that order. -/
def ValidatePasswordStrength (password : String) : Except PwRule Unit :=
  if password.utf8ByteSize < 8 then .error .tooShort
  else
    let hasUpper := password.data.any fun c => 'A' ≤ c ∧ c ≤ 'Z'
    let hasLower := password.data.any fun c => 'a' ≤ c ∧ c ≤ 'z'
    let hasNumber := password.data.any fun c => '0' ≤ c ∧ c ≤ '9'
    if ¬hasUpper then .error .noUpper
    else if ¬hasLower then .error .noLower
    else if ¬hasNumber then .error .noNumber
    else .ok ()

/-! ## Tokens — `internal/auth/jwt.go` -/

/-- A JWT signing algorithm; the key function accepts exactly the HMAC
family. -/
inductive Alg where
  | hs256 : Alg
  | hs384 : Alg
  | hs512 : Alg
  | rs256 : Alg
  | none_alg : Alg
deriving DecidableEq, Repr

/-- Membership in the `jwt.SigningMethodHMAC` family. -/
def Alg.isHMAC : Alg → Bool
  | .hs256 => true
  | .hs384 => true
  | .hs512 => true
  | _ => false

/-- The decoded claim set of a token.  Custom fields (`user_id`, `email`,
`username`, `is_admin`) and registered fields are `Option`s: `none` means
the field is absent from the JSON payload (decoding into Go's
`CustomClaims` zero-fills absent fields, modelled at the use site). -/
structure Claims where
  userID : Option Int
  email : Option String
  username : Option String
  isAdmin : Option Bool
  expiresAt : Option Int
  issuedAt : Option Int
  notBefore : Option Int
  issuer : Option String
  subject : Option String
deriving DecidableEq, Repr

/-- A signed token value: the algorithm in its header, its claim payload,
and the key it was signed with (standing for the HMAC signature). -/
structure Token where
  alg : Alg
  claims : Claims
  key : String
deriving DecidableEq, Repr

/-- `JWTManager` configuration: secret and the two lifetimes (seconds). -/
structure JWTManager where
  secretKey : String
  accessTokenDuration : Int
  refreshTokenDuration : Int
deriving DecidableEq, Repr

/-- Token-validation failures.  `badAlg` and `badSignature` are parse
failures (key-function rejection, bad signature); `libInvalidClaims` is
the jwt/v5 library's `ErrTokenInvalidClaims`-wrapped error produced by
the default claims validation inside `ParseWithClaims` (it `errors.Is`
the library's `ErrTokenExpired`, but as a value it is distinct from the
repository's own sentinels); `invalidToken` and `expiredToken` are the
repository's `ErrInvalidToken` and `ErrExpiredToken` sentinels from
`jwt.go` 12–15. -/
inductive TokenError where
  | badAlg : TokenError
  | badSignature : TokenError
  | libInvalidClaims : TokenError
  | invalidToken : TokenError
  | expiredToken : TokenError
deriving DecidableEq, Repr

/-- The user record (`models.User`), audit fields as unix seconds. -/
structure User where
  id : Int
  email : String
  username : String
  passwordHash : HashString
  firstName : String
  lastName : String
  isActive : Bool
  isAdmin : Bool
  lastLoginAt : Option Int
  createdAt : Int
  updatedAt : Int
deriving DecidableEq, Repr

/-- `JWTManager.GenerateAccessToken`: embeds the user's id, email,
username and admin flag plus registered claims (`exp = now + access
duration`, `iat = nbf = now`, issuer `todo-api`, subject the stringified
user id), signed HS256 with the manager's secret. -/
def GenerateAccessToken (j : JWTManager) (now : Int) (user : User) : Token :=
  { alg := .hs256
    claims :=
      { userID := some user.id
        email := some user.email
        username := some user.username
        isAdmin := some user.isAdmin
        expiresAt := some (now + j.accessTokenDuration)
        issuedAt := some now
        notBefore := some now
        issuer := some "todo-api"
        subject := some (toString user.id) }
    key := j.secretKey }

/-- `JWTManager.GenerateRefreshToken`: registered claims only (`exp = now
+ refresh duration`, `iat = now`, issuer `todo-api`), signed HS256;
returns the token together with its expiry instant. -/
def GenerateRefreshToken (j : JWTManager) (now : Int) : Token × Int :=
  ({ alg := .hs256
     claims :=
       { userID := none
         email := none
         username := none
         isAdmin := none
         expiresAt := some (now + j.refreshTokenDuration)
         issuedAt := some now
         notBefore := none
         issuer := some "todo-api"
         subject := none }
     key := j.secretKey },
   now + j.refreshTokenDuration)

/-- The jwt/v5 parser's default registered-claims validator, run inside
`ParseWithClaims`: the claims are valid only when `exp`, if present, is
strictly in the future (`now.Before(exp)`) and `nbf`, if present, is not
in the future. -/
def validateClaims (now : Int) (c : Claims) : Bool :=
  (match c.expiresAt with
   | some exp => decide (now < exp)
   | none => true) &&
  (match c.notBefore with
   | some nbf => decide (¬(now < nbf))
   | none => true)

/-- The external `jwt/v5` `jwt.ParseWithClaims` step with the in-repo key
function (`jwt.go` 83–89 / 110–115).  Per the library: the key function
rejects any non-HMAC signing method; signature verification succeeds
exactly when the token was signed with the manager's secret; and the
default claims validation then rejects the token — with the library's
`ErrTokenInvalidClaims`-wrapped error, not one of the repository's
sentinels — when `validateClaims` fails. -/
def parseWithClaims (j : JWTManager) (now : Int) (t : Token) : Except TokenError Claims :=
  if t.alg.isHMAC = false then .error .badAlg
  else if t.key ≠ j.secretKey then .error .badSignature
  else if validateClaims now t.claims = false then .error .libInvalidClaims
  else .ok t.claims

/-- `JWTManager.ValidateToken` (`jwt.go` 82–106): parse and verify via
the library (returning its error unchanged on failure, `jwt.go` 91–93),
then fail with the repository's `ErrExpiredToken` when an expiry claim
is present and strictly in the past.  Because the library already
rejects expired tokens during the parse, this final branch is dead code
for them — it is kept to mirror the source. -/
def ValidateToken (j : JWTManager) (now : Int) (t : Token) : Except TokenError Claims :=
  match parseWithClaims j now t with
  | .error e => .error e
  | .ok claims =>
    match claims.expiresAt with
    | some exp => if exp < now then .error .expiredToken else .ok claims
    | none => .ok claims

/-- `JWTManager.ValidateRefreshToken` (`jwt.go` 109–131): same parse,
signature and (dead, see `ValidateToken`) expiry checks against the
registered-claims payload. -/
def ValidateRefreshToken (j : JWTManager) (now : Int) (t : Token) : Except TokenError Unit :=
  match parseWithClaims j now t with
  | .error e => .error e
  | .ok claims =>
    match claims.expiresAt with
    | some exp => if exp < now then .error .expiredToken else .ok ()
    | none => .ok ()

/-- `JWTManager.GetAccessTokenDuration`: access-token lifetime in
seconds. -/
def GetAccessTokenDuration (j : JWTManager) : Int :=
  j.accessTokenDuration

/-! ## Repository — `internal/repository/user.go` -/

/-- A row of the `refresh_tokens` table. -/
structure RefreshRow where
  id : Int
  userID : Int
  token : Token
  expiresAt : Int
  createdAt : Int
deriving DecidableEq, Repr

/-- The database state visible to the auth subsystem: the `users` and
`refresh_tokens` tables plus the serial-id counters. -/
structure DBState where
  users : List User
  refreshTokens : List RefreshRow
  nextUserID : Int
  nextTokenID : Int
deriving DecidableEq, Repr

/-- `UserRepository.GetByID`: `SELECT ... FROM users WHERE id = $1`;
`sql.ErrNoRows` becomes `none`. -/
def getByID (db : DBState) (id : Int) : Option User :=
  db.users.find? fun u => u.id = id

/-- `UserRepository.GetByUsername`: `SELECT ... WHERE username = $1`. -/
def getByUsername (db : DBState) (username : String) : Option User :=
  db.users.find? fun u => u.username = username

/-- `UserRepository.GetByEmail`: `SELECT ... WHERE email = $1`. -/
def getByEmail (db : DBState) (email : String) : Option User :=
  db.users.find? fun u => u.email = email

/-- `UserRepository.ExistsByEmail`: `SELECT EXISTS(SELECT 1 FROM users
WHERE email = $1)`. -/
def existsByEmail (db : DBState) (email : String) : Bool :=
  db.users.any fun u => u.email = email

/-- `UserRepository.ExistsByUsername`: `SELECT EXISTS(SELECT 1 FROM users
WHERE username = $1)`. -/
def existsByUsername (db : DBState) (username : String) : Bool :=
  db.users.any fun u => u.username = username

/-- `UserRepository.Create`: inserts the user row, the serial column
assigning the id. -/
def createUser (db : DBState) (now : Int) (u : User) : User × DBState :=
  let row := { u with id := db.nextUserID, createdAt := now, updatedAt := now }
  (row,
   { db with
       users := db.users ++ [row]
       nextUserID := db.nextUserID + 1 })

/-- `UserRepository.UpdateLastLogin`: `UPDATE users SET last_login_at =
$1 WHERE id = $2`. -/
def updateLastLogin (db : DBState) (userID : Int) (now : Int) : DBState :=
  { db with
      users := db.users.map fun u =>
        if u.id = userID then { u with lastLoginAt := some now } else u }

/-- `UserRepository.SaveRefreshToken`: `INSERT INTO refresh_tokens
(user_id, token, expires_at, created_at) VALUES ...`. -/
def saveRefreshToken (db : DBState) (userID : Int) (token : Token)
    (expiresAt now : Int) : DBState :=
  { db with
      refreshTokens := db.refreshTokens ++
        [{ id := db.nextTokenID, userID := userID, token := token
           expiresAt := expiresAt, createdAt := now }]
      nextTokenID := db.nextTokenID + 1 }

/-- `UserRepository.GetRefreshToken`: `SELECT ... FROM refresh_tokens
WHERE token = $1 AND expires_at > $2` with `$2 = now`; `sql.ErrNoRows`
becomes `none`. -/
def getRefreshToken (db : DBState) (now : Int) (token : Token) : Option RefreshRow :=
  db.refreshTokens.find? fun r => r.token = token ∧ now < r.expiresAt

/-- `UserRepository.DeleteRefreshToken`: `DELETE FROM refresh_tokens
WHERE token = $1` (idempotent). -/
def deleteRefreshToken (db : DBState) (token : Token) : DBState :=
  { db with refreshTokens := db.refreshTokens.filter fun r => ¬(r.token = token) }

/-- `UserRepository.DeleteExpiredRefreshTokens`: `DELETE FROM
refresh_tokens WHERE expires_at < $1` with `$1 = now`. -/
def deleteExpiredRefreshTokens (db : DBState) (now : Int) : DBState :=
  { db with refreshTokens := db.refreshTokens.filter fun r => ¬(r.expiresAt < now) }

/-- `UserRepository.DeleteUserRefreshTokens`: `DELETE FROM refresh_tokens
WHERE user_id = $1`. -/
def deleteUserRefreshTokens (db : DBState) (userID : Int) : DBState :=
  { db with refreshTokens := db.refreshTokens.filter fun r => ¬(r.userID = userID) }

/-! ## Service — `internal/service/auth.go` -/

/-- The auth service error taxonomy (`service/auth.go` 14–20 plus the
wrapped validation error and pass-throughs of hashing failures). -/
inductive AuthError where
  | invalidCredentials : AuthError
  | userNotActive : AuthError
  | emailExists : AuthError
  | usernameExists : AuthError
  | invalidRefreshToken : AuthError
  | invalidInput (rule : PwRule) : AuthError
  | internalError : AuthError
deriving DecidableEq, Repr

/-- `models.CreateUserRequest`. -/
structure CreateUserRequest where
  email : String
  username : String
  password : String
  firstName : String
  lastName : String
deriving DecidableEq, Repr

/-- `models.UserResponse` — the public user projection; the password hash
field does not appear. -/
structure UserResponse where
  id : Int
  email : String
  username : String
  firstName : String
  lastName : String
  isActive : Bool
  isAdmin : Bool
  lastLoginAt : Option Int
  createdAt : Int
  updatedAt : Int
deriving DecidableEq, Repr

/-- `User.ToResponse`: drops the password hash. -/
def User.toResponse (u : User) : UserResponse :=
  { id := u.id, email := u.email, username := u.username
    firstName := u.firstName, lastName := u.lastName
    isActive := u.isActive, isAdmin := u.isAdmin
    lastLoginAt := u.lastLoginAt, createdAt := u.createdAt
    updatedAt := u.updatedAt }

/-- `models.TokenResponse`. -/
structure TokenResponse where
  accessToken : Token
  refreshToken : Token
  tokenType : String
  expiresIn : Int
deriving DecidableEq, Repr

/-- `strings.ToLower(strings.TrimSpace(s))` — the normalization applied
to emails and usernames. -/
def normalize (s : String) : String :=
  toLowerStr (trimStr s)

/-- `AuthService.Register` (`service/auth.go` 39–90): validate password
strength, normalize email and username, reject duplicates via the
existence queries, hash the password, insert the user with `isActive =
true` and `isAdmin = false`, and return the public projection.  The
returned state is the database after the call; every error path returns
it unchanged (no mutation before the insert). -/
def Register (db : DBState) (now salt : Int) (req : CreateUserRequest) :
    Except AuthError UserResponse × DBState :=
  match ValidatePasswordStrength req.password with
  | .error rule => (.error (.invalidInput rule), db)
  | .ok _ =>
    let email := normalize req.email
    let username := normalize req.username
    if existsByEmail db email then (.error .emailExists, db)
    else if existsByUsername db username then (.error .usernameExists, db)
    else
      match HashPassword req.password salt.toNat with
      | .error _ => (.error .internalError, db)
      | .ok hashed =>
        let user : User :=
          { id := 0, email := email, username := username
            passwordHash := hashed
            firstName := trimStr req.firstName, lastName := trimStr req.lastName
            isActive := true, isAdmin := false
            lastLoginAt := none, createdAt := now, updatedAt := now }
        let (row, db1) := createUser db now user
        (.ok row.toResponse, db1)

/-- `AuthService.Login` (`service/auth.go` 93–156): normalize the input,
look the user up by email when it contains `@` and by username otherwise,
fail with `InvalidCredentials` when absent, fail with `UserNotActive`
when inactive, then verify the password; on success mint both tokens,
persist the refresh token and best-effort update `last_login_at`. -/
def Login (j : JWTManager) (db : DBState) (now : Int)
    (username password : String) : Except AuthError TokenResponse × DBState :=
  let uname := normalize username
  let user? := if containsChar uname '@' then getByEmail db uname else getByUsername db uname
  match user? with
  | none => (.error .invalidCredentials, db)
  | some user =>
    if user.isActive = false then (.error .userNotActive, db)
    else
      match CheckPassword password user.passwordHash with
      | .error .invalidPassword => (.error .invalidCredentials, db)
      | .error .otherError => (.error .internalError, db)
      | .ok _ =>
        let accessToken := GenerateAccessToken j now user
        let (refreshToken, expiresAt) := GenerateRefreshToken j now
        let db1 := saveRefreshToken db user.id refreshToken expiresAt now
        let db2 := updateLastLogin db1 user.id now
        (.ok { accessToken := accessToken, refreshToken := refreshToken
               tokenType := "Bearer", expiresIn := GetAccessTokenDuration j },
         db2)

/-- `AuthService.RefreshToken` (`service/auth.go` 159–212): validate the
token cryptographically, look it up among the unexpired store rows, load
the owning user and require it to exist and be active, then mint a new
access token, best-effort delete the old row, and mint and persist a new
refresh token (rotation-on-use). -/
def RefreshTokenOp (j : JWTManager) (db : DBState) (now : Int) (t : Token) :
    Except AuthError TokenResponse × DBState :=
  match ValidateRefreshToken j now t with
  | .error _ => (.error .invalidRefreshToken, db)
  | .ok _ =>
    match getRefreshToken db now t with
    | none => (.error .invalidRefreshToken, db)
    | some row =>
      match getByID db row.userID with
      | none => (.error .invalidRefreshToken, db)
      | some user =>
        if user.isActive = false then (.error .invalidRefreshToken, db)
        else
          let accessToken := GenerateAccessToken j now user
          let db1 := deleteRefreshToken db t
          let (newRefreshToken, expiresAt) := GenerateRefreshToken j now
          let db2 := saveRefreshToken db1 user.id newRefreshToken expiresAt now
          (.ok { accessToken := accessToken, refreshToken := newRefreshToken
                 tokenType := "Bearer", expiresIn := GetAccessTokenDuration j },
           db2)

/-- `AuthService.Logout`: delete the single matching store row. -/
def Logout (db : DBState) (t : Token) : DBState :=
  deleteRefreshToken db t

/-- `AuthService.LogoutAll`: delete every store row of the user. -/
def LogoutAll (db : DBState) (userID : Int) : DBState :=
  deleteUserRefreshTokens db userID

/-- `AuthService.CleanupExpiredTokens`: delegate to the expiry sweep. -/
def CleanupExpiredTokens (db : DBState) (now : Int) : DBState :=
  deleteExpiredRefreshTokens db now

/-! ## Middleware — `internal/middleware/auth.go` -/

/-- `models.UserContext` — the request-scoped authenticated identity. -/
structure UserContext where
  id : Int
  email : String
  username : String
  isAdmin : Bool
deriving DecidableEq, Repr

/-- Building a `UserContext` from decoded claims (`middleware/auth.go`
44–49).  Decoding a JSON payload into Go's `CustomClaims` zero-fills
fields absent from the payload, hence the defaults. -/
def userContextOfClaims (c : Claims) : UserContext :=
  { id := c.userID.getD 0
    email := c.email.getD ""
    username := c.username.getD ""
    isAdmin := c.isAdmin.getD false }

/-- Outcome of the authenticator middleware: the four aborting JSON
responses, or proceeding with an identity attached to the context. -/
inductive AuthOutcome where
  | abortMissingHeader : AuthOutcome
  | abortBadFormat : AuthOutcome
  | abortExpired : AuthOutcome
  | abortInvalid : AuthOutcome
  | proceed (user : UserContext) : AuthOutcome
deriving DecidableEq, Repr

/-- `AuthMiddleware` (`middleware/auth.go` 13–60).  The wire form of a
token is a string; `decode` maps a token string to the token value it
deserializes to (`none` for strings that are not well-formed tokens, on
which `ValidateToken` fails structurally).  The header is split on
spaces; the format gate requires exactly two parts with the first
literally `Bearer`. -/
def AuthMiddleware (j : JWTManager) (now : Int) (decode : String → Option Token)
    (authHeader : String) : AuthOutcome :=
  if authHeader = "" then .abortMissingHeader
  else
    let bearerToken := splitOnSpace authHeader
    if bearerToken.length = 2 ∧ bearerToken.head? = some "Bearer" then
      match bearerToken[1]? with
      | none => .abortBadFormat
      | some ts =>
        match decode ts with
        | none => .abortInvalid
        | some tok =>
          match ValidateToken j now tok with
          | .error .expiredToken => .abortExpired
          | .error _ => .abortInvalid
          | .ok claims => .proceed (userContextOfClaims claims)
    else .abortBadFormat

/-- Outcome of the admin gate: 401, 403, or proceed. -/
inductive AdminOutcome where
  | abortUnauthorized : AdminOutcome
  | abortForbidden : AdminOutcome
  | proceed : AdminOutcome
deriving DecidableEq, Repr

/-- `RequireAdmin` (`middleware/auth.go` 63–81): aborts 401 when no user
is attached to the context, 403 when the attached user is not an admin,
and proceeds otherwise. -/
def RequireAdmin (user? : Option UserContext) : AdminOutcome :=
  match user? with
  | none => .abortUnauthorized
  | some user => if user.isAdmin = false then .abortForbidden else .proceed

/-! ## Concrete fixtures

Small concrete states used to evaluate the operations at specific
inputs. -/

/-- A concrete token manager. -/
def mgrFix : JWTManager :=
  { secretKey := "s3cret", accessTokenDuration := 900, refreshTokenDuration := 604800 }

/-- A concrete inactive user whose password is `Passw0rd`. -/
def aliceFix : User :=
  { id := 1, email := "a@x.com", username := "alice"
    passwordHash := .bcrypt "Passw0rd" 7
    firstName := "", lastName := "", isActive := false, isAdmin := false
    lastLoginAt := none, createdAt := 0, updatedAt := 0 }

/-- A concrete active user whose password is `Passw0rd`. -/
def bobFix : User :=
  { aliceFix with id := 2, email := "b@x.com", username := "bob", isActive := true }

/-- A database holding only the inactive user. -/
def dbInactiveFix : DBState :=
  { users := [aliceFix], refreshTokens := [], nextUserID := 2, nextTokenID := 1 }

/-- A refresh token minted by the fixture manager at time 500. -/
def tokFix : Token :=
  (GenerateRefreshToken mgrFix 500).fst

/-- A store row binding `tokFix` to the inactive user, unexpired at time
1000. -/
def rowInactiveFix : RefreshRow :=
  { id := 1, userID := 1, token := tokFix, expiresAt := 605300, createdAt := 500 }

/-- Database: inactive user plus an unexpired row for `tokFix`. -/
def dbRowInactiveFix : DBState :=
  { users := [aliceFix], refreshTokens := [rowInactiveFix], nextUserID := 2, nextTokenID := 2 }

/-- A store row binding `tokFix` to the active user, unexpired at time
1000. -/
def rowActiveFix : RefreshRow :=
  { id := 1, userID := 2, token := tokFix, expiresAt := 605300, createdAt := 500 }

/-- Database: active user plus an unexpired row for `tokFix`. -/
def dbRowActiveFix : DBState :=
  { users := [bobFix], refreshTokens := [rowActiveFix], nextUserID := 3, nextTokenID := 2 }

/-- The empty database. -/
def dbEmptyFix : DBState :=
  { users := [], refreshTokens := [], nextUserID := 1, nextTokenID := 1 }

/-- A concrete registration request (email and username denormalized on
purpose). -/
def reqFix : CreateUserRequest :=
  { email := "A@x.com ", username := "Alice", password := "Passw0rd"
    firstName := "", lastName := "" }

/-! ## Theorems -/

/-- C6: For every password string, Register's strength validation fails
with a validation error naming the first unmet rule, checking the rules
in this order: length at least 8, at least one uppercase letter, at
least one lowercase letter, at least one digit; it succeeds exactly when
all four rules are met. -/
theorem password_strength_first_unmet_rule (password : String) :
    (ValidatePasswordStrength password = .ok () ↔
      (8 ≤ password.utf8ByteSize ∧
       (∃ c ∈ password.data, 'A' ≤ c ∧ c ≤ 'Z') ∧
       (∃ c ∈ password.data, 'a' ≤ c ∧ c ≤ 'z') ∧
       (∃ c ∈ password.data, '0' ≤ c ∧ c ≤ '9'))) ∧
    (ValidatePasswordStrength password = .error .tooShort ↔
      password.utf8ByteSize < 8) ∧
    (ValidatePasswordStrength password = .error .noUpper ↔
      (8 ≤ password.utf8ByteSize ∧
       ¬(∃ c ∈ password.data, 'A' ≤ c ∧ c ≤ 'Z'))) ∧
    (ValidatePasswordStrength password = .error .noLower ↔
      (8 ≤ password.utf8ByteSize ∧
       (∃ c ∈ password.data, 'A' ≤ c ∧ c ≤ 'Z') ∧
       ¬(∃ c ∈ password.data, 'a' ≤ c ∧ c ≤ 'z'))) ∧
    (ValidatePasswordStrength password = .error .noNumber ↔
      (8 ≤ password.utf8ByteSize ∧
       (∃ c ∈ password.data, 'A' ≤ c ∧ c ≤ 'Z') ∧
       (∃ c ∈ password.data, 'a' ≤ c ∧ c ≤ 'z') ∧
       ¬(∃ c ∈ password.data, '0' ≤ c ∧ c ≤ '9'))) := by
  unfold ValidatePasswordStrength
  by_cases hlen : password.utf8ByteSize < 8
  · have h8 : ¬8 ≤ password.utf8ByteSize := by omega
    simp [if_pos hlen, hlen, h8]
  · rw [if_neg hlen]
    have h8 : 8 ≤ password.utf8ByteSize := by omega
    by_cases hu : (password.data.any fun c => 'A' ≤ c ∧ c ≤ 'Z') = true <;>
      by_cases hl : (password.data.any fun c => 'a' ≤ c ∧ c ≤ 'z') = true <;>
      by_cases hn : (password.data.any fun c => '0' ≤ c ∧ c ≤ '9') = true <;>
      simp_all

/-- C7: The expired-token sweep deletes exactly the Session Store rows
whose `expires_at` is strictly before the sweep's observation time:
every such row is removed, and every row whose expiry equals that
instant or lies after it is retained. -/
theorem cleanup_sweeps_strictly_expired (db : DBState) (now : Int) (r : RefreshRow) :
    r ∈ (CleanupExpiredTokens db now).refreshTokens ↔
      (r ∈ db.refreshTokens ∧ now ≤ r.expiresAt) := by
  simp [CleanupExpiredTokens, deleteExpiredRefreshTokens, List.mem_filter, not_lt]

/-- C10: The admin gate aborts with the unauthorized (401) signal when no
identity is attached to the request context, aborts with the forbidden
(403) signal exactly when an attached identity has the admin flag unset,
and proceeds exactly when an attached identity has the admin flag set. -/
theorem require_admin_gate :
    RequireAdmin none = .abortUnauthorized ∧
    (∀ u : UserContext, RequireAdmin (some u) =
      if u.isAdmin then .proceed else .abortForbidden) := by
  refine ⟨rfl, fun u => ?_⟩
  unfold RequireAdmin
  cases h : u.isAdmin <;> simp [h]

/-- C1 (counterexample): the claim says a wrong password on an inactive
account yields `InvalidCredentials`; on the code, the login of the
inactive fixture user with a wrong password yields `UserNotActive`
instead — the active-status check runs before password verification. -/
theorem login_inactive_wrong_password_counterexample :
    (Login mgrFix dbInactiveFix 1000 "alice" "WrongPass1").fst = .error .userNotActive ∧
    (Login mgrFix dbInactiveFix 1000 "alice" "WrongPass1").fst ≠ .error .invalidCredentials := by
  decide

/-- C1 (amended): in `Login` the active-status check is performed before
password verification: whenever the normalized username-or-email
resolves to an existing user with `isActive = false`, the call fails
with `UserNotActive` regardless of the supplied password — also on a
wrong password — and the state is unchanged. -/
theorem login_inactive_before_password_check (j : JWTManager) (db : DBState)
    (now : Int) (username password : String) (user : User)
    (hlookup : (if containsChar (normalize username) '@'
                then getByEmail db (normalize username)
                else getByUsername db (normalize username)) = some user)
    (hinactive : user.isActive = false) :
    Login j db now username password = (.error .userNotActive, db) := by
  simp [Login, hlookup, hinactive]

/-- C1 (witness): the amended theorem applied to the inactive fixture
user with a wrong password. -/
theorem login_inactive_before_password_check_witness :
    Login mgrFix dbInactiveFix 1000 "alice" "WrongPass1" =
      (.error .userNotActive, dbInactiveFix) :=
  login_inactive_before_password_check mgrFix dbInactiveFix 1000 "alice" "WrongPass1"
    aliceFix (by decide) (by decide)

/-- C2 (code bug): the claim — and the spec, and the dead code at
`jwt.go` 101–103 together with the unreachable `Token has expired`
response at `middleware/auth.go` 34–35 — intend expired tokens to be
answered with the expired-session signal.  On the code as written this
never happens: for every access token whose signature verifies
(HMAC-family algorithm, signed with the manager's secret) but whose
expiry claim is strictly in the past, the jwt/v5 parse itself rejects
the token with the library's claims-validation error, `ValidateToken`
returns that error unchanged (never the repository's `ErrExpiredToken`),
and the middleware's identity comparison against `ErrExpiredToken`
therefore fails — the response is the invalid-token signal. -/
theorem expired_token_answered_invalid_token (j : JWTManager) (now : Int)
    (decode : String → Option Token) (authHeader ts : String) (t : Token) (exp : Int)
    (hne : authHeader ≠ "")
    (hsplit : splitOnSpace authHeader = ["Bearer", ts])
    (hdec : decode ts = some t)
    (halg : t.alg.isHMAC = true)
    (hkey : t.key = j.secretKey)
    (hexp : t.claims.expiresAt = some exp)
    (hpast : exp < now) :
    ValidateToken j now t = .error .libInvalidClaims ∧
    ValidateToken j now t ≠ .error .expiredToken ∧
    AuthMiddleware j now decode authHeader = .abortInvalid := by
  have hval : ValidateToken j now t = .error .libInvalidClaims := by
    have hlt : ¬now < exp := by omega
    simp [ValidateToken, parseWithClaims, validateClaims, halg, hkey, hexp, hlt]
  refine ⟨hval, by simp [hval], ?_⟩
  unfold AuthMiddleware
  rw [if_neg hne, hsplit]
  simp [hdec, hval]

/-- C2 (witness): a concrete expired token — minted at time 500 with a
604800-second lifetime, so expiring at 605300, and checked at time
700000 — inside the header `Bearer x` is answered with the invalid-token
signal. -/
theorem expired_token_answered_invalid_token_witness :
    ValidateToken mgrFix 700000 tokFix = .error .libInvalidClaims ∧
    ValidateToken mgrFix 700000 tokFix ≠ .error .expiredToken ∧
    AuthMiddleware mgrFix 700000 (fun s => if s = "x" then some tokFix else none)
      "Bearer x" = .abortInvalid :=
  expired_token_answered_invalid_token mgrFix 700000
    (fun s => if s = "x" then some tokFix else none) "Bearer x" "x" tokFix 605300
    (by decide) (by decide) (by decide) (by decide) (by decide) (by decide) (by decide)

/-- Helper: a `RefreshToken` call whose store lookup comes back empty
fails with `InvalidRefreshToken`, whatever the cryptographic check
said. -/
theorem refreshTokenOp_error_of_lookup_none (j : JWTManager) (db : DBState)
    (now : Int) (t : Token) (h : getRefreshToken db now t = none) :
    (RefreshTokenOp j db now t).fst = .error .invalidRefreshToken := by
  unfold RefreshTokenOp
  cases hv : ValidateRefreshToken j now t with
  | error e => rfl
  | ok u => rw [h]

/-- Helper: deleting a token removes every store row carrying it. -/
theorem getRefreshToken_delete_self (db : DBState) (now : Int) (t : Token) :
    getRefreshToken (deleteRefreshToken db t) now t = none := by
  simp [getRefreshToken, deleteRefreshToken, List.find?_eq_none, List.mem_filter]
  intro r _ hr
  simp [hr]

/-- C3 (counterexample): the claim's "succeeds exactly when" fails: for
the fixture state whose only user is inactive, the fixture refresh token
is cryptographically valid and its store row is present and unexpired at
time 1000, yet `RefreshToken` fails with `InvalidRefreshToken`. -/
theorem refresh_iff_valid_and_present_counterexample :
    ValidateRefreshToken mgrFix 1000 tokFix = .ok () ∧
    getRefreshToken dbRowInactiveFix 1000 tokFix = some rowInactiveFix ∧
    (RefreshTokenOp mgrFix dbRowInactiveFix 1000 tokFix).fst = .error .invalidRefreshToken := by
  decide

/-- C3 (amended): `RefreshToken` succeeds exactly when the token is
cryptographically valid AND a row for it is present in the Session Store
with expiry strictly after the current time AND the owning user still
exists and is active; in every other case it fails with
`InvalidRefreshToken`. -/
theorem refresh_succeeds_iff_valid_present_active (j : JWTManager) (db : DBState)
    (now : Int) (t : Token) :
    ((RefreshTokenOp j db now t).fst.isOk = true ↔
      (ValidateRefreshToken j now t = .ok () ∧
       ∃ row, getRefreshToken db now t = some row ∧
         ∃ user, getByID db row.userID = some user ∧ user.isActive = true)) ∧
    ((RefreshTokenOp j db now t).fst.isOk = false →
      (RefreshTokenOp j db now t).fst = .error .invalidRefreshToken) := by
  unfold RefreshTokenOp
  cases hv : ValidateRefreshToken j now t with
  | error e => simp [Except.isOk, Except.toBool, hv]
  | ok u =>
    cases u
    cases hr : getRefreshToken db now t with
    | none => simp [Except.isOk, Except.toBool, hv, hr]
    | some row =>
      cases hu : getByID db row.userID with
      | none => simp [Except.isOk, Except.toBool, hv, hr, hu]
      | some user =>
        cases hact : user.isActive with
        | false => simp [Except.isOk, Except.toBool, hv, hr, hu, hact]
        | true => simp [Except.isOk, Except.toBool, hv, hr, hu, hact]

/-- C3 (witness): the amended characterization applied at the fixture
state whose user is active: the success side of the iff yields a
successful call. -/
theorem refresh_succeeds_iff_valid_present_active_witness :
    (RefreshTokenOp mgrFix dbRowActiveFix 1000 tokFix).fst.isOk = true :=
  ((refresh_succeeds_iff_valid_present_active mgrFix dbRowActiveFix 1000 tokFix).1).mpr
    ⟨by decide, rowActiveFix, by decide, bobFix, by decide, by decide⟩

/-- C4: revocation is permanent: after `Logout(token)` a later
`RefreshToken(token)` call on the resulting state fails with
`InvalidRefreshToken`; and after `LogoutAll(userId)` every refresh token
previously issued to that user (the store's rows are keyed by a globally
unique token string, which the uniqueness hypothesis reflects) fails the
same way. -/
theorem revocation_is_permanent (j : JWTManager) (db : DBState) (now : Int) :
    (∀ t : Token, (RefreshTokenOp j (Logout db t) now t).fst = .error .invalidRefreshToken) ∧
    (∀ userID : Int, ∀ row ∈ db.refreshTokens, row.userID = userID →
      (∀ r ∈ db.refreshTokens, r.token = row.token → r.userID = userID) →
      (RefreshTokenOp j (LogoutAll db userID) now row.token).fst =
        .error .invalidRefreshToken) := by
  constructor
  · intro t
    exact refreshTokenOp_error_of_lookup_none j _ now t
      (getRefreshToken_delete_self db now t)
  · intro userID row hrow huid huniq
    apply refreshTokenOp_error_of_lookup_none
    simp [LogoutAll, deleteUserRefreshTokens, getRefreshToken,
      List.find?_eq_none, List.mem_filter]
    intro r hr hne htok
    exact absurd (huniq r hr htok) hne

/-- C4 (witness): the theorem applied to the active-user fixture state:
both after `Logout` of the fixture token and after `LogoutAll` of its
user, refreshing with that token fails. -/
theorem revocation_is_permanent_witness :
    (RefreshTokenOp mgrFix (Logout dbRowActiveFix tokFix) 1000 tokFix).fst =
      .error .invalidRefreshToken ∧
    (RefreshTokenOp mgrFix (LogoutAll dbRowActiveFix 2) 1000 tokFix).fst =
      .error .invalidRefreshToken :=
  ⟨(revocation_is_permanent mgrFix dbRowActiveFix 1000).1 tokFix,
   (revocation_is_permanent mgrFix dbRowActiveFix 1000).2 2 rowActiveFix (by decide)
     (by decide) (by decide)⟩

/-- A second request whose email equals `reqFix`'s after
normalization. -/
def reqDupEmailFix : CreateUserRequest :=
  { reqFix with email := "a@X.com", username := "carol" }

/-- A second request whose username equals `reqFix`'s after
normalization, with a fresh email. -/
def reqDupUserFix : CreateUserRequest :=
  { reqFix with email := "b@x.com", username := "ALICE " }

/-- Helper: a successful `Register` leaves the store with the request's
normalized email and username taken. -/
theorem register_success_takes_email_username (db : DBState) (now salt : Int)
    (req : CreateUserRequest)
    (h : (Register db now salt req).fst.isOk = true) :
    existsByEmail (Register db now salt req).snd (normalize req.email) = true ∧
    existsByUsername (Register db now salt req).snd (normalize req.username) = true := by
  cases hv : ValidatePasswordStrength req.password with
  | error r => simp [Register, hv, Except.isOk, Except.toBool] at h
  | ok u =>
    cases u
    by_cases he : existsByEmail db (normalize req.email) = true
    · simp [Register, hv, he, Except.isOk, Except.toBool] at h
    · by_cases hu : existsByUsername db (normalize req.username) = true
      · simp [Register, hv, he, hu, Except.isOk, Except.toBool] at h
      · by_cases hp : req.password = ""
        · rw [hp] at hv
          exact absurd hv (by decide)
        · simp only [existsByEmail, existsByUsername, List.any_eq_true,
            decide_eq_true_eq] at he hu
          simp [Register, hv, he, hu, hp, HashPassword, createUser,
            existsByEmail, existsByUsername, List.any_eq_true]

/-- C5: after a successful `Register`, a second call whose email
normalizes to the first's is rejected with `EmailExists`, and one whose
username normalizes to the first's (its own email not being taken) is
rejected with `UsernameExists`; both rejections leave the state exactly
as it was after the first call (no mutation of any kind on the error
path).  The second call is assumed to pass password-strength validation,
which runs before the uniqueness checks. -/
theorem register_duplicate_rejected_no_mutation (db : DBState)
    (now1 now2 salt1 salt2 : Int) (req1 req2 : CreateUserRequest)
    (h1 : (Register db now1 salt1 req1).fst.isOk = true)
    (h2 : ValidatePasswordStrength req2.password = .ok ()) :
    (normalize req2.email = normalize req1.email →
      Register (Register db now1 salt1 req1).snd now2 salt2 req2 =
        (.error .emailExists, (Register db now1 salt1 req1).snd)) ∧
    (existsByEmail (Register db now1 salt1 req1).snd (normalize req2.email) = false →
      normalize req2.username = normalize req1.username →
      Register (Register db now1 salt1 req1).snd now2 salt2 req2 =
        (.error .usernameExists, (Register db now1 salt1 req1).snd)) := by
  obtain ⟨hem, hun⟩ := register_success_takes_email_username db now1 salt1 req1 h1
  set db1 := (Register db now1 salt1 req1).snd with hdb1
  constructor
  · intro heq
    simp [Register, h2, heq, hem]
  · intro hem2 hequ
    simp [Register, h2, hem2, hequ, hun]

/-- C5 (witness): registering `A@x.com `/`Alice` into the empty store,
then re-registering with email `a@X.com` is rejected with `EmailExists`,
and re-registering with username `ALICE ` (fresh email) is rejected with
`UsernameExists`, both without touching the state. -/
theorem register_duplicate_rejected_no_mutation_witness :
    (Register (Register dbEmptyFix 10 1 reqFix).snd 20 2 reqDupEmailFix =
      (.error .emailExists, (Register dbEmptyFix 10 1 reqFix).snd)) ∧
    (Register (Register dbEmptyFix 10 1 reqFix).snd 20 2 reqDupUserFix =
      (.error .usernameExists, (Register dbEmptyFix 10 1 reqFix).snd)) :=
  ⟨(register_duplicate_rejected_no_mutation dbEmptyFix 10 20 1 2 reqFix reqDupEmailFix
      (by decide) (by decide)).1 (by decide),
   (register_duplicate_rejected_no_mutation dbEmptyFix 10 20 1 2 reqFix reqDupUserFix
      (by decide) (by decide)).2 (by decide) (by decide)⟩

/-- C8: every refresh token minted by `GenerateRefreshToken` carries only
standard claims — issued-at `now`, expires-at `now` plus the configured
refresh duration, issuer `todo-api` — and no user identity claims (no
user id, email, username, admin flag, nor even a subject); on a
successful login, the association between the refresh token and the user
exists solely as the Session Store row written alongside it, whose
`user_id` is the id carried by the access token. -/
theorem refresh_token_carries_no_identity (j : JWTManager) (now : Int) :
    ((GenerateRefreshToken j now).fst.claims.userID = none ∧
     (GenerateRefreshToken j now).fst.claims.email = none ∧
     (GenerateRefreshToken j now).fst.claims.username = none ∧
     (GenerateRefreshToken j now).fst.claims.isAdmin = none ∧
     (GenerateRefreshToken j now).fst.claims.subject = none ∧
     (GenerateRefreshToken j now).fst.claims.notBefore = none ∧
     (GenerateRefreshToken j now).fst.claims.expiresAt =
       some (now + j.refreshTokenDuration) ∧
     (GenerateRefreshToken j now).fst.claims.issuedAt = some now ∧
     (GenerateRefreshToken j now).fst.claims.issuer = some "todo-api") ∧
    (∀ (db : DBState) (username password : String) (resp : TokenResponse)
        (db' : DBState),
      Login j db now username password = (.ok resp, db') →
      resp.refreshToken = (GenerateRefreshToken j now).fst ∧
      ∃ row ∈ db'.refreshTokens, row.token = resp.refreshToken ∧
        resp.accessToken.claims.userID = some row.userID) := by
  refine ⟨by simp [GenerateRefreshToken], ?_⟩
  intro db username password resp db' hlogin
  cases hlk : (if containsChar (normalize username) '@' = true
               then getByEmail db (normalize username)
               else getByUsername db (normalize username)) with
  | none => simp [Login, hlk] at hlogin
  | some user =>
    cases hact : user.isActive with
    | false => simp [Login, hlk, hact] at hlogin
    | true =>
      cases hcp : CheckPassword password user.passwordHash with
      | error pe => cases pe <;> simp [Login, hlk, hact, hcp] at hlogin
      | ok u0 =>
        cases u0
        simp [Login, hlk, hact, hcp] at hlogin
        obtain ⟨hresp, hdb⟩ := hlogin
        subst hresp hdb
        refine ⟨rfl, ?_⟩
        refine ⟨{ id := db.nextTokenID, userID := user.id
                  token := (GenerateRefreshToken j now).fst
                  expiresAt := (GenerateRefreshToken j now).snd
                  createdAt := now }, ?_, rfl, ?_⟩
        · simp [updateLastLogin, saveRefreshToken]
        · simp [GenerateAccessToken]

/-- C9: rotation preserves ownership and identity: on a successful
`RefreshToken` call, the newly persisted refresh-token row has the same
owning user id as the store row that backed the presented token, and the
new access token's claims carry that user's stored id, email, username
and admin flag. -/
theorem rotation_preserves_owner_and_identity (j : JWTManager) (db : DBState)
    (now : Int) (t : Token) (row : RefreshRow) (user : User)
    (resp : TokenResponse) (db' : DBState)
    (hrow : getRefreshToken db now t = some row)
    (huser : getByID db row.userID = some user)
    (hop : RefreshTokenOp j db now t = (.ok resp, db')) :
    resp.accessToken.claims.userID = some user.id ∧
    resp.accessToken.claims.email = some user.email ∧
    resp.accessToken.claims.username = some user.username ∧
    resp.accessToken.claims.isAdmin = some user.isAdmin ∧
    user.id = row.userID ∧
    ∃ newRow ∈ db'.refreshTokens, newRow.token = resp.refreshToken ∧
      newRow.userID = row.userID := by
  have hid : user.id = row.userID := by
    have := List.find?_some huser
    simpa using this
  cases hv : ValidateRefreshToken j now t with
  | error e => simp [RefreshTokenOp, hv] at hop
  | ok u =>
    cases u
    cases hact : user.isActive with
    | false => simp [RefreshTokenOp, hv, hrow, huser, hact] at hop
    | true =>
      simp [RefreshTokenOp, hv, hrow, huser, hact] at hop
      obtain ⟨hresp, hdb⟩ := hop
      subst hresp hdb
      refine ⟨by simp [GenerateAccessToken], by simp [GenerateAccessToken],
        by simp [GenerateAccessToken], by simp [GenerateAccessToken], hid, ?_⟩
      refine ⟨{ id := (deleteRefreshToken db t).nextTokenID, userID := user.id
                token := (GenerateRefreshToken j now).fst
                expiresAt := (GenerateRefreshToken j now).snd
                createdAt := now }, ?_, rfl, hid⟩
      simp [saveRefreshToken]

/-- Database holding only the active user, with no session rows. -/
def dbBobFix : DBState :=
  { users := [bobFix], refreshTokens := [], nextUserID := 3, nextTokenID := 1 }

/-- The token response of the fixture login at time 1000. -/
def loginRespFix : TokenResponse :=
  { accessToken := GenerateAccessToken mgrFix 1000 bobFix
    refreshToken := (GenerateRefreshToken mgrFix 1000).fst
    tokenType := "Bearer", expiresIn := 900 }

/-- The database state after the fixture login at time 1000. -/
def loginDBFix : DBState :=
  updateLastLogin
    (saveRefreshToken dbBobFix 2 (GenerateRefreshToken mgrFix 1000).fst
      (GenerateRefreshToken mgrFix 1000).snd 1000) 2 1000

/-- C8 (witness): the fixture login of the active user: its refresh token
is the standard-claims-only minted one, and the persisted row ties it to
the user id carried by the access token. -/
theorem refresh_token_carries_no_identity_witness :
    loginRespFix.refreshToken = (GenerateRefreshToken mgrFix 1000).fst ∧
    ∃ row ∈ loginDBFix.refreshTokens, row.token = loginRespFix.refreshToken ∧
      loginRespFix.accessToken.claims.userID = some row.userID :=
  (refresh_token_carries_no_identity mgrFix 1000).2 dbBobFix "bob" "Passw0rd"
    loginRespFix loginDBFix (by decide)

/-- The token response of the fixture rotation at time 1000. -/
def rotRespFix : TokenResponse :=
  { accessToken := GenerateAccessToken mgrFix 1000 bobFix
    refreshToken := (GenerateRefreshToken mgrFix 1000).fst
    tokenType := "Bearer", expiresIn := 900 }

/-- The database state after the fixture rotation at time 1000. -/
def rotDBFix : DBState :=
  saveRefreshToken (deleteRefreshToken dbRowActiveFix tokFix) 2
    (GenerateRefreshToken mgrFix 1000).fst (GenerateRefreshToken mgrFix 1000).snd 1000

/-- C9 (witness): rotating the fixture token of the active user keeps the
owning user id and stamps the stored identity into the new access
token. -/
theorem rotation_preserves_owner_and_identity_witness :
    rotRespFix.accessToken.claims.userID = some bobFix.id ∧
    rotRespFix.accessToken.claims.email = some bobFix.email ∧
    rotRespFix.accessToken.claims.username = some bobFix.username ∧
    rotRespFix.accessToken.claims.isAdmin = some bobFix.isAdmin ∧
    bobFix.id = rowActiveFix.userID ∧
    ∃ newRow ∈ rotDBFix.refreshTokens, newRow.token = rotRespFix.refreshToken ∧
      newRow.userID = rowActiveFix.userID :=
  rotation_preserves_owner_and_identity mgrFix dbRowActiveFix 1000 tokFix
    rowActiveFix bobFix rotRespFix rotDBFix (by decide) (by decide) (by decide)

end TodoApi
